import Mathlib

/-!
Shallow embedding of the hidden-rule card-classification game found in
`src/CardSortingGame.tsx` (DOM version) and `src/CardSortingGame3D.tsx`
(three.js version), together with proofs of the spec's testable properties.

The randomness of the source (target-card generation and the choice of a
replacement rule) is made explicit: functions that draw a random index take
that index as an argument, and functions that draw a random card take the
card as an argument.  React state updates are modelled as pure transitions
on an explicit session-state record; the `setTimeout` lockout callback is
the separate transition `endLockout`.
-/

inductive Color where
  | red
  | blue
  | green
  | yellow
deriving DecidableEq, Repr

inductive Shape where
  | circle
  | square
  | triangle
  | star
deriving DecidableEq, Repr

inductive Size where
  | small
  | medium
  | large
deriving DecidableEq, Repr

inductive Rule where
  | color
  | shape
  | number
  | size
deriving DecidableEq, Repr

inductive Feedback where
  | correct
  | incorrect
deriving DecidableEq, Repr

/-- The `Card` interface: an incidental id plus the four classifiable
attributes. -/
structure Card where
  id : Nat
  color : Color
  shape : Shape
  number : Nat
  size : Size
deriving DecidableEq, Repr

/-- The `GameStats` interface of both source files. -/
structure GameStats where
  attempts : Nat
  correct : Nat
  perseverativeErrors : Nat
  ruleChanges : Nat
  streak : Nat
deriving DecidableEq, Repr

/-- Constant `CARDS_TO_CHANGE_RULE = 5` (line 25 of the DOM version, line 29 of
the 3D version). -/
def CARDS_TO_CHANGE_RULE : Nat := 5

/-- The literal delay `1000` passed to `setTimeout` when scheduling the end
of the feedback lockout, in both source files. -/
def feedbackDelayMs : Nat := 1000

/-- Function `checkMatch(c1, c2, rule)`: `c1[rule] === c2[rule]`, the dynamic field
access written out per rule. -/
def checkMatch (c1 c2 : Card) (rule : Rule) : Bool :=
  match rule with
  | Rule.color => c1.color == c2.color
  | Rule.shape => c1.shape == c2.shape
  | Rule.number => c1.number == c2.number
  | Rule.size => c1.size == c2.size

/-- The list `rules` built inside `changeRule` in both source files. -/
def allRules : List Rule :=
  [Rule.color, Rule.shape, Rule.number, Rule.size]

/-- The filtered list `rules.filter(r => r !== currentRule)` from `changeRule`. -/
def availableRules (current : Rule) : List Rule :=
  allRules.filter (fun r => r ≠ current)

/-- Indexing `availableRules[Math.floor(Math.random() * availableRules.length)]`:
the random draw is passed in as `choice`; the filtered list always has
three elements, so the index is a `Fin 3`.  The default value of `getD` is
never used. -/
def pickNewRule (current : Rule) (choice : Fin 3) : Rule :=
  (availableRules current).getD choice.val current

/-- The fixed `referenceCards` array of the DOM version (ids 1..4; the 3D
version uses the same four attribute tuples with opaque uuids). -/
def referenceCards : List Card :=
  [ { id := 1, color := Color.red, shape := Shape.circle, number := 1, size := Size.small },
    { id := 2, color := Color.green, shape := Shape.triangle, number := 2, size := Size.medium },
    { id := 3, color := Color.blue, shape := Shape.star, number := 3, size := Size.large },
    { id := 4, color := Color.yellow, shape := Shape.square, number := 4, size := Size.medium } ]

/-- Session state of the DOM version: the React state hooks `currentRule`,
`previousRule`, `targetCard`, `feedback` and `stats`. -/
structure GameState where
  currentRule : Rule
  previousRule : Option Rule
  targetCard : Option Card
  feedback : Option Feedback
  stats : GameStats
deriving DecidableEq, Repr

/-- Transition `changeRule` of the DOM version: record the old rule, pick a new one
among the other three, bump `ruleChanges` and reset `streak`. -/
def changeRule (s : GameState) (choice : Fin 3) : GameState :=
  { s with
    previousRule := some s.currentRule
    currentRule := pickNewRule s.currentRule choice
    stats := { s.stats with ruleChanges := s.stats.ruleChanges + 1, streak := 0 } }

/-- Handler `handleCardClick(refCard)` of the DOM version, fused with the
`useEffect` streak watcher that calls `changeRule` whenever the committed
streak is a positive multiple of `CARDS_TO_CHANGE_RULE`.  The guard
`if (!targetCard || feedback) return;` is the outer match. -/
def handleCardClick (s : GameState) (refCard : Card) (choice : Fin 3) : GameState :=
  match s.targetCard, s.feedback with
  | some target, none =>
    let isMatch := checkMatch target refCard s.currentRule
    let isPerseverative :=
      !isMatch && (match s.previousRule with
        | some pr => checkMatch target refCard pr
        | none => false)
    let s1 : GameState :=
      { s with
        feedback := some (if isMatch then Feedback.correct else Feedback.incorrect)
        stats :=
          { attempts := s.stats.attempts + 1
            correct := s.stats.correct + (if isMatch then 1 else 0)
            streak := if isMatch then s.stats.streak + 1 else 0
            ruleChanges := s.stats.ruleChanges
            perseverativeErrors :=
              s.stats.perseverativeErrors + (if isPerseverative then 1 else 0) } }
    if 0 < s1.stats.streak ∧ s1.stats.streak % CARDS_TO_CHANGE_RULE = 0 then
      changeRule s1 choice
    else
      s1
  | _, _ => s

/-- The `setTimeout` body scheduled by `handleCardClick`: clear the
feedback and generate a new target card (the random card is passed in). -/
def endLockout (s : GameState) (next : Card) : GameState :=
  { s with feedback := none, targetCard := some next }

/-- One full evaluated round: the click handler followed by the lockout
callback that installs the next target. -/
def playRound (s : GameState) (refCard : Card) (choice : Fin 3) (next : Card) : GameState :=
  endLockout (handleCardClick s refCard choice) next

/-- The delay argument handed to `setTimeout` by `handleCardClick`: the
timeout is scheduled (with the literal `1000`) exactly when the guard
passes, and not otherwise. -/
def scheduledDelay (s : GameState) : Option Nat :=
  match s.targetCard, s.feedback with
  | some _, none => some 1000
  | _, _ => none

/-- Session state of the 3D version: `gameStateRef` (`currentRule`,
`previousRule`, `isAnimating`) together with the React hooks `targetCard`,
`feedback` and `stats`. -/
structure GameState3D where
  currentRule : Rule
  previousRule : Option Rule
  isAnimating : Bool
  targetCard : Option Card
  feedback : Option Feedback
  stats : GameStats
deriving DecidableEq, Repr

/-- Transition `changeRule` of the 3D version (identical logic on the 3D state). -/
def changeRule3D (s : GameState3D) (choice : Fin 3) : GameState3D :=
  { s with
    previousRule := some s.currentRule
    currentRule := pickNewRule s.currentRule choice
    stats := { s.stats with ruleChanges := s.stats.ruleChanges + 1, streak := 0 } }

/-- Handler `handleCardSelection(refCard)` of the 3D version, with the
`setTimeout(changeRule, 100)` scheduled inside the `setStats` updater
applied before the lockout ends (the `isAnimating` flag blocks any other
evaluation in between).  The guard is
`if (!targetCard || gameStateRef.current.isAnimating) return;`. -/
def handleCardSelection (s : GameState3D) (refCard : Card) (choice : Fin 3) : GameState3D :=
  match s.targetCard, s.isAnimating with
  | some target, false =>
    let isMatch := checkMatch target refCard s.currentRule
    let isPerseverative :=
      !isMatch && (match s.previousRule with
        | some pr => checkMatch target refCard pr
        | none => false)
    let newStreak := if isMatch then s.stats.streak + 1 else 0
    let s1 : GameState3D :=
      { s with
        isAnimating := true
        feedback := some (if isMatch then Feedback.correct else Feedback.incorrect)
        stats :=
          { attempts := s.stats.attempts + 1
            correct := s.stats.correct + (if isMatch then 1 else 0)
            streak := newStreak
            ruleChanges := s.stats.ruleChanges
            perseverativeErrors :=
              s.stats.perseverativeErrors + (if isPerseverative then 1 else 0) } }
    if 0 < newStreak ∧ newStreak % CARDS_TO_CHANGE_RULE = 0 then
      changeRule3D s1 choice
    else
      s1
  | _, _ => s

/-- Result of the raycast in `handleCanvasClick`: the nearest intersected
mesh's `userData` (`isReference` flag and the attached card), or `none`
when the click hit no object. -/
structure HitObject where
  isReference : Bool
  cardData : Card
deriving DecidableEq, Repr

/-- Dispatcher `handleCanvasClick` of the 3D version, abstracted over the geometric
raycast: a click resolves to `none` (hit nothing) or to a mesh's
`userData`; only hits flagged `isReference` reach `handleCardSelection`. -/
def handleCanvasClick (s : GameState3D) (hit : Option HitObject) (choice : Fin 3) : GameState3D :=
  match hit with
  | none => s
  | some obj =>
    if obj.isReference then handleCardSelection s obj.cardData choice else s

/-- The round-evaluation core of `handleCardClick` (DOM version): feedback
value, updated stats, and whether the streak watcher will fire
`changeRule` (committed streak a positive multiple of the threshold). -/
def evalRoundDOM (target refCard : Card) (currentRule : Rule) (previousRule : Option Rule)
    (prev : GameStats) : Feedback × GameStats × Bool :=
  let isMatch := checkMatch target refCard currentRule
  let isPerseverative :=
    !isMatch && (match previousRule with
      | some pr => checkMatch target refCard pr
      | none => false)
  let newStats : GameStats :=
    { attempts := prev.attempts + 1
      correct := prev.correct + (if isMatch then 1 else 0)
      streak := if isMatch then prev.streak + 1 else 0
      ruleChanges := prev.ruleChanges
      perseverativeErrors := prev.perseverativeErrors + (if isPerseverative then 1 else 0) }
  ( if isMatch then Feedback.correct else Feedback.incorrect,
    newStats,
    decide (0 < newStats.streak ∧ newStats.streak % CARDS_TO_CHANGE_RULE = 0) )

/-- The round-evaluation core of `handleCardSelection` (3D version):
`newStreak` is computed first and the rule-change trigger tested on it
inside the updater. -/
def evalRound3D (target refCard : Card) (currentRule : Rule) (previousRule : Option Rule)
    (prev : GameStats) : Feedback × GameStats × Bool :=
  let isMatch := checkMatch target refCard currentRule
  let isPerseverative :=
    !isMatch && (match previousRule with
      | some pr => checkMatch target refCard pr
      | none => false)
  let newStreak := if isMatch then prev.streak + 1 else 0
  ( if isMatch then Feedback.correct else Feedback.incorrect,
    { attempts := prev.attempts + 1
      correct := prev.correct + (if isMatch then 1 else 0)
      streak := newStreak
      ruleChanges := prev.ruleChanges
      perseverativeErrors := prev.perseverativeErrors + (if isPerseverative then 1 else 0) },
    decide (0 < newStreak ∧ newStreak % CARDS_TO_CHANGE_RULE = 0) )

/-- C2: for all cards `a, b` and every rule `r`, `checkMatch a b r` is true
exactly when the attribute selected by `r` agrees on the two cards; the
function is total by construction and has no error case. -/
theorem checkMatch_iff_attr_eq (a b : Card) (r : Rule) :
    checkMatch a b r = true ↔
      (match r with
       | Rule.color => a.color = b.color
       | Rule.shape => a.shape = b.shape
       | Rule.number => a.number = b.number
       | Rule.size => a.size = b.size) := by
  cases r <;> simp [checkMatch]

theorem pickNewRule_ne (r : Rule) (c : Fin 3) : pickNewRule r c ≠ r := by
  cases r <;> fin_cases c <;> decide

theorem pickNewRule_mem (r : Rule) (c : Fin 3) : pickNewRule r c ∈ availableRules r := by
  cases r <;> fin_cases c <;> decide

theorem handleCardClick_correct_noswitch (s : GameState) (t refCard : Card) (choice : Fin 3)
    (htc : s.targetCard = some t) (hfb : s.feedback = none)
    (hm : checkMatch t refCard s.currentRule = true)
    (hns : (s.stats.streak + 1) % CARDS_TO_CHANGE_RULE ≠ 0) :
    handleCardClick s refCard choice =
      { s with
        feedback := some Feedback.correct
        stats := { s.stats with
          attempts := s.stats.attempts + 1
          correct := s.stats.correct + 1
          streak := s.stats.streak + 1 } } := by
  unfold handleCardClick
  rw [htc, hfb]
  simp [hm, hns]

theorem handleCardClick_correct_switch (s : GameState) (t refCard : Card) (choice : Fin 3)
    (htc : s.targetCard = some t) (hfb : s.feedback = none)
    (hm : checkMatch t refCard s.currentRule = true)
    (hsw : (s.stats.streak + 1) % CARDS_TO_CHANGE_RULE = 0) :
    handleCardClick s refCard choice =
      { currentRule := pickNewRule s.currentRule choice
        previousRule := some s.currentRule
        targetCard := s.targetCard
        feedback := some Feedback.correct
        stats :=
          { attempts := s.stats.attempts + 1
            correct := s.stats.correct + 1
            perseverativeErrors := s.stats.perseverativeErrors
            ruleChanges := s.stats.ruleChanges + 1
            streak := 0 } } := by
  unfold handleCardClick
  rw [htc, hfb]
  simp [hm, hsw, changeRule]

theorem handleCardClick_incorrect (s : GameState) (t refCard : Card) (choice : Fin 3)
    (htc : s.targetCard = some t) (hfb : s.feedback = none)
    (hm : checkMatch t refCard s.currentRule = false) :
    handleCardClick s refCard choice =
      { s with
        feedback := some Feedback.incorrect
        stats := { s.stats with
          attempts := s.stats.attempts + 1
          streak := 0
          perseverativeErrors := s.stats.perseverativeErrors +
            (if (match s.previousRule with
                 | some pr => checkMatch t refCard pr
                 | none => false) then 1 else 0) } } := by
  unfold handleCardClick
  rw [htc, hfb]
  simp [hm]

theorem handleCardSelection_correct_noswitch (s : GameState3D) (t refCard : Card) (choice : Fin 3)
    (htc : s.targetCard = some t) (han : s.isAnimating = false)
    (hm : checkMatch t refCard s.currentRule = true)
    (hns : (s.stats.streak + 1) % CARDS_TO_CHANGE_RULE ≠ 0) :
    handleCardSelection s refCard choice =
      { s with
        isAnimating := true
        feedback := some Feedback.correct
        stats := { s.stats with
          attempts := s.stats.attempts + 1
          correct := s.stats.correct + 1
          streak := s.stats.streak + 1 } } := by
  unfold handleCardSelection
  rw [htc, han]
  simp [hm, hns]

theorem handleCardSelection_correct_switch (s : GameState3D) (t refCard : Card) (choice : Fin 3)
    (htc : s.targetCard = some t) (han : s.isAnimating = false)
    (hm : checkMatch t refCard s.currentRule = true)
    (hsw : (s.stats.streak + 1) % CARDS_TO_CHANGE_RULE = 0) :
    handleCardSelection s refCard choice =
      { currentRule := pickNewRule s.currentRule choice
        previousRule := some s.currentRule
        isAnimating := true
        targetCard := s.targetCard
        feedback := some Feedback.correct
        stats :=
          { attempts := s.stats.attempts + 1
            correct := s.stats.correct + 1
            perseverativeErrors := s.stats.perseverativeErrors
            ruleChanges := s.stats.ruleChanges + 1
            streak := 0 } } := by
  unfold handleCardSelection
  rw [htc, han]
  simp [hm, hsw, changeRule3D]

theorem handleCardSelection_incorrect (s : GameState3D) (t refCard : Card) (choice : Fin 3)
    (htc : s.targetCard = some t) (han : s.isAnimating = false)
    (hm : checkMatch t refCard s.currentRule = false) :
    handleCardSelection s refCard choice =
      { s with
        isAnimating := true
        feedback := some Feedback.incorrect
        stats := { s.stats with
          attempts := s.stats.attempts + 1
          streak := 0
          perseverativeErrors := s.stats.perseverativeErrors +
            (if (match s.previousRule with
                 | some pr => checkMatch t refCard pr
                 | none => false) then 1 else 0) } } := by
  unfold handleCardSelection
  rw [htc, han]
  simp [hm]

/-- C10: the round-evaluation logic of the two implementations is
equivalent: on the same target, selection, current rule, previous rule and
prior stats, `handleCardClick` (DOM) and `handleCardSelection` (3D)
compute the same feedback, the same updated stats, and fire a rule change
under the same condition (new streak a positive multiple of 5). -/
theorem evalRound_DOM_eq_3D (target refCard : Card) (currentRule : Rule)
    (previousRule : Option Rule) (prev : GameStats) :
    evalRoundDOM target refCard currentRule previousRule prev =
      evalRound3D target refCard currentRule previousRule prev := rfl

/-- C3: an evaluated selection that is incorrect under the current rule
sets the streak to 0 and performs no rule switch — `currentRule`,
`previousRule` and `ruleChanges` are unchanged, whatever the prior streak
was — in both implementations. -/
theorem incorrect_resets_streak_no_switch :
    (∀ (s : GameState) (t refCard : Card) (choice : Fin 3),
      s.targetCard = some t → s.feedback = none →
      checkMatch t refCard s.currentRule = false →
      (handleCardClick s refCard choice).stats.streak = 0 ∧
      (handleCardClick s refCard choice).currentRule = s.currentRule ∧
      (handleCardClick s refCard choice).previousRule = s.previousRule ∧
      (handleCardClick s refCard choice).stats.ruleChanges = s.stats.ruleChanges) ∧
    (∀ (s : GameState3D) (t refCard : Card) (choice : Fin 3),
      s.targetCard = some t → s.isAnimating = false →
      checkMatch t refCard s.currentRule = false →
      (handleCardSelection s refCard choice).stats.streak = 0 ∧
      (handleCardSelection s refCard choice).currentRule = s.currentRule ∧
      (handleCardSelection s refCard choice).previousRule = s.previousRule ∧
      (handleCardSelection s refCard choice).stats.ruleChanges = s.stats.ruleChanges) := by
  constructor
  · intro s t refCard choice htc hfb hm
    rw [handleCardClick_incorrect s t refCard choice htc hfb hm]
    exact ⟨rfl, rfl, rfl, rfl⟩
  · intro s t refCard choice htc han hm
    rw [handleCardSelection_incorrect s t refCard choice htc han hm]
    exact ⟨rfl, rfl, rfl, rfl⟩

/-- C4: on every evaluated round, `perseverativeErrors` grows by 1 exactly
when the selection is incorrect under the current rule and would have been
correct under the previous rule; while `previousRule` is still unset it
never grows — in both implementations. -/
theorem perseverative_increment_iff :
    (∀ (s : GameState) (t refCard : Card) (choice : Fin 3),
      s.targetCard = some t → s.feedback = none →
      (handleCardClick s refCard choice).stats.perseverativeErrors =
        s.stats.perseverativeErrors +
          (match s.previousRule with
           | some pr =>
             if checkMatch t refCard s.currentRule = false ∧ checkMatch t refCard pr = true
             then 1 else 0
           | none => 0)) ∧
    (∀ (s : GameState3D) (t refCard : Card) (choice : Fin 3),
      s.targetCard = some t → s.isAnimating = false →
      (handleCardSelection s refCard choice).stats.perseverativeErrors =
        s.stats.perseverativeErrors +
          (match s.previousRule with
           | some pr =>
             if checkMatch t refCard s.currentRule = false ∧ checkMatch t refCard pr = true
             then 1 else 0
           | none => 0)) := by
  constructor
  · intro s t refCard choice htc hfb
    rcases hm : checkMatch t refCard s.currentRule with _ | _
    · rw [handleCardClick_incorrect s t refCard choice htc hfb hm]
      rcases hpr : s.previousRule with _ | pr <;> simp [hm]
    · by_cases hsw : (s.stats.streak + 1) % CARDS_TO_CHANGE_RULE = 0
      · rw [handleCardClick_correct_switch s t refCard choice htc hfb hm hsw]
        rcases hpr : s.previousRule with _ | pr <;> simp [hm]
      · rw [handleCardClick_correct_noswitch s t refCard choice htc hfb hm hsw]
        rcases hpr : s.previousRule with _ | pr <;> simp [hm]
  · intro s t refCard choice htc han
    rcases hm : checkMatch t refCard s.currentRule with _ | _
    · rw [handleCardSelection_incorrect s t refCard choice htc han hm]
      rcases hpr : s.previousRule with _ | pr <;> simp [hm]
    · by_cases hsw : (s.stats.streak + 1) % CARDS_TO_CHANGE_RULE = 0
      · rw [handleCardSelection_correct_switch s t refCard choice htc han hm hsw]
        rcases hpr : s.previousRule with _ | pr <;> simp [hm]
      · rw [handleCardSelection_correct_noswitch s t refCard choice htc han hm hsw]
        rcases hpr : s.previousRule with _ | pr <;> simp [hm]

theorem playRound_correct_noswitch_facts (s : GameState) (t refCard next : Card) (choice : Fin 3)
    (htc : s.targetCard = some t) (hfb : s.feedback = none)
    (hm : checkMatch t refCard s.currentRule = true)
    (hns : (s.stats.streak + 1) % CARDS_TO_CHANGE_RULE ≠ 0) :
    (playRound s refCard choice next).currentRule = s.currentRule ∧
    (playRound s refCard choice next).previousRule = s.previousRule ∧
    (playRound s refCard choice next).targetCard = some next ∧
    (playRound s refCard choice next).feedback = none ∧
    (playRound s refCard choice next).stats.streak = s.stats.streak + 1 ∧
    (playRound s refCard choice next).stats.ruleChanges = s.stats.ruleChanges := by
  unfold playRound endLockout
  rw [handleCardClick_correct_noswitch s t refCard choice htc hfb hm hns]
  exact ⟨rfl, rfl, rfl, rfl, rfl, rfl⟩

theorem handleCardClick_correct_switch_facts (s : GameState) (t refCard : Card) (choice : Fin 3)
    (htc : s.targetCard = some t) (hfb : s.feedback = none)
    (hm : checkMatch t refCard s.currentRule = true)
    (hsw : (s.stats.streak + 1) % CARDS_TO_CHANGE_RULE = 0) :
    (handleCardClick s refCard choice).previousRule = some s.currentRule ∧
    (handleCardClick s refCard choice).currentRule = pickNewRule s.currentRule choice ∧
    (handleCardClick s refCard choice).stats.streak = 0 ∧
    (handleCardClick s refCard choice).stats.ruleChanges = s.stats.ruleChanges + 1 := by
  rw [handleCardClick_correct_switch s t refCard choice htc hfb hm hsw]
  exact ⟨rfl, rfl, rfl, rfl⟩

/-- C1: starting from any state awaiting a selection with `streak = 0`,
five consecutive correct selections (with the lockout callback run between
rounds) produce exactly one rule switch: the first four rounds leave
`currentRule`, `previousRule` and `ruleChanges` untouched, and the fifth
evaluation sets `previousRule` to the rule that was active throughout,
moves `currentRule` to a different rule chosen among the other three,
resets `streak` to 0 and bumps `ruleChanges` by exactly 1, in the same
update. -/
theorem five_correct_triggers_single_switch
    (s s1 s2 s3 s4 s5 : GameState) (t0 t1 t2 t3 t4 : Card)
    (r1 r2 r3 r4 r5 : Card) (ch1 ch2 ch3 ch4 ch5 : Fin 3)
    (e1 : s1 = playRound s r1 ch1 t1)
    (e2 : s2 = playRound s1 r2 ch2 t2)
    (e3 : s3 = playRound s2 r3 ch3 t3)
    (e4 : s4 = playRound s3 r4 ch4 t4)
    (e5 : s5 = handleCardClick s4 r5 ch5)
    (htc : s.targetCard = some t0) (hfb : s.feedback = none)
    (hstreak : s.stats.streak = 0)
    (h1 : checkMatch t0 r1 s.currentRule = true)
    (h2 : checkMatch t1 r2 s.currentRule = true)
    (h3 : checkMatch t2 r3 s.currentRule = true)
    (h4 : checkMatch t3 r4 s.currentRule = true)
    (h5 : checkMatch t4 r5 s.currentRule = true) :
    (s1.currentRule = s.currentRule ∧ s1.previousRule = s.previousRule ∧
      s1.stats.ruleChanges = s.stats.ruleChanges) ∧
    (s2.currentRule = s.currentRule ∧ s2.previousRule = s.previousRule ∧
      s2.stats.ruleChanges = s.stats.ruleChanges) ∧
    (s3.currentRule = s.currentRule ∧ s3.previousRule = s.previousRule ∧
      s3.stats.ruleChanges = s.stats.ruleChanges) ∧
    (s4.currentRule = s.currentRule ∧ s4.previousRule = s.previousRule ∧
      s4.stats.ruleChanges = s.stats.ruleChanges) ∧
    (s5.previousRule = some s.currentRule ∧
      s5.currentRule ≠ s.currentRule ∧
      s5.currentRule ∈ availableRules s.currentRule ∧
      s5.stats.streak = 0 ∧
      s5.stats.ruleChanges = s.stats.ruleChanges + 1) := by
  have F1 := playRound_correct_noswitch_facts s t0 r1 t1 ch1 htc hfb h1
    (by rw [hstreak]; decide)
  rw [← e1] at F1
  obtain ⟨cur1, prev1, tgt1, fb1, stk1, rc1⟩ := F1
  have F2 := playRound_correct_noswitch_facts s1 t1 r2 t2 ch2 tgt1 fb1
    (by rw [cur1]; exact h2) (by rw [stk1, hstreak]; decide)
  rw [← e2] at F2
  obtain ⟨cur2, prev2, tgt2, fb2, stk2, rc2⟩ := F2
  have F3 := playRound_correct_noswitch_facts s2 t2 r3 t3 ch3 tgt2 fb2
    (by rw [cur2, cur1]; exact h3) (by rw [stk2, stk1, hstreak]; decide)
  rw [← e3] at F3
  obtain ⟨cur3, prev3, tgt3, fb3, stk3, rc3⟩ := F3
  have F4 := playRound_correct_noswitch_facts s3 t3 r4 t4 ch4 tgt3 fb3
    (by rw [cur3, cur2, cur1]; exact h4) (by rw [stk3, stk2, stk1, hstreak]; decide)
  rw [← e4] at F4
  obtain ⟨cur4, prev4, tgt4, fb4, stk4, rc4⟩ := F4
  have F5 := handleCardClick_correct_switch_facts s4 t4 r5 ch5 tgt4 fb4
    (by rw [cur4, cur3, cur2, cur1]; exact h5)
    (by rw [stk4, stk3, stk2, stk1, hstreak]; decide)
  rw [← e5] at F5
  obtain ⟨pr5, cur5, stk5, rc5⟩ := F5
  refine ⟨⟨cur1, prev1, rc1⟩,
    ⟨cur2.trans cur1, prev2.trans prev1, rc2.trans rc1⟩,
    ⟨(cur3.trans cur2).trans cur1, (prev3.trans prev2).trans prev1,
      (rc3.trans rc2).trans rc1⟩,
    ⟨((cur4.trans cur3).trans cur2).trans cur1,
      ((prev4.trans prev3).trans prev2).trans prev1,
      ((rc4.trans rc3).trans rc2).trans rc1⟩,
    ?_, ?_, ?_, stk5, ?_⟩
  · rw [pr5, cur4, cur3, cur2, cur1]
  · rw [cur5, cur4, cur3, cur2, cur1]
    exact pickNewRule_ne s.currentRule ch5
  · rw [cur5, cur4, cur3, cur2, cur1]
    exact pickNewRule_mem s.currentRule ch5
  · rw [rc5, rc4, rc3, rc2, rc1]

/-- Demonstration stats: the initial value passed to `useState`. -/
def initialStats : GameStats :=
  { attempts := 0, correct := 0, perseverativeErrors := 0, ruleChanges := 0, streak := 0 }

/-- Demonstration target card (red / circle / 1 / small). -/
def demoTarget : Card :=
  { id := 100, color := Color.red, shape := Shape.circle, number := 1, size := Size.small }

/-- The red reference card. -/
def refRed : Card :=
  { id := 1, color := Color.red, shape := Shape.circle, number := 1, size := Size.small }

/-- The blue reference card. -/
def refBlue : Card :=
  { id := 3, color := Color.blue, shape := Shape.star, number := 3, size := Size.large }

/-- Demonstration DOM session state awaiting a selection under `color`. -/
def demoState : GameState :=
  { currentRule := Rule.color, previousRule := none, targetCard := some demoTarget,
    feedback := none, stats := initialStats }

/-- Demonstration 3D session state awaiting a selection under `color`. -/
def demoState3D : GameState3D :=
  { currentRule := Rule.color, previousRule := none, isAnimating := false,
    targetCard := some demoTarget, feedback := none, stats := initialStats }

/-- State after one correct round of the demonstration run. -/
def w1 : GameState := playRound demoState refRed 0 demoTarget

/-- State after two correct rounds of the demonstration run. -/
def w2 : GameState := playRound w1 refRed 0 demoTarget

/-- State after three correct rounds of the demonstration run. -/
def w3 : GameState := playRound w2 refRed 0 demoTarget

/-- State after four correct rounds of the demonstration run. -/
def w4 : GameState := playRound w3 refRed 0 demoTarget

/-- State right after the fifth correct evaluation of the demonstration
run. -/
def w5 : GameState := handleCardClick w4 refRed 0

/-- Witness for the C1 theorem: a concrete run of five correct selections
of the red reference card under the `color` rule. -/
theorem five_correct_triggers_single_switch_witness :
    (w1.currentRule = demoState.currentRule ∧ w1.previousRule = demoState.previousRule ∧
      w1.stats.ruleChanges = demoState.stats.ruleChanges) ∧
    (w2.currentRule = demoState.currentRule ∧ w2.previousRule = demoState.previousRule ∧
      w2.stats.ruleChanges = demoState.stats.ruleChanges) ∧
    (w3.currentRule = demoState.currentRule ∧ w3.previousRule = demoState.previousRule ∧
      w3.stats.ruleChanges = demoState.stats.ruleChanges) ∧
    (w4.currentRule = demoState.currentRule ∧ w4.previousRule = demoState.previousRule ∧
      w4.stats.ruleChanges = demoState.stats.ruleChanges) ∧
    (w5.previousRule = some demoState.currentRule ∧
      w5.currentRule ≠ demoState.currentRule ∧
      w5.currentRule ∈ availableRules demoState.currentRule ∧
      w5.stats.streak = 0 ∧
      w5.stats.ruleChanges = demoState.stats.ruleChanges + 1) :=
  five_correct_triggers_single_switch demoState w1 w2 w3 w4 w5
    demoTarget demoTarget demoTarget demoTarget demoTarget
    refRed refRed refRed refRed refRed 0 0 0 0 0
    rfl rfl rfl rfl rfl rfl rfl rfl
    (by decide) (by decide) (by decide) (by decide) (by decide)

/-- Witness for the C3 theorem: selecting the blue reference card against
a red target under `color` is incorrect and switches nothing. -/
theorem incorrect_resets_streak_no_switch_witness :
    ((handleCardClick demoState refBlue 0).stats.streak = 0 ∧
     (handleCardClick demoState refBlue 0).currentRule = demoState.currentRule ∧
     (handleCardClick demoState refBlue 0).previousRule = demoState.previousRule ∧
     (handleCardClick demoState refBlue 0).stats.ruleChanges = demoState.stats.ruleChanges) ∧
    ((handleCardSelection demoState3D refBlue 0).stats.streak = 0 ∧
     (handleCardSelection demoState3D refBlue 0).currentRule = demoState3D.currentRule ∧
     (handleCardSelection demoState3D refBlue 0).previousRule = demoState3D.previousRule ∧
     (handleCardSelection demoState3D refBlue 0).stats.ruleChanges =
       demoState3D.stats.ruleChanges) :=
  ⟨incorrect_resets_streak_no_switch.1 demoState demoTarget refBlue 0 rfl rfl (by decide),
   incorrect_resets_streak_no_switch.2 demoState3D demoTarget refBlue 0 rfl rfl (by decide)⟩

/-- Demonstration state after a first switch: current rule `shape`,
previous rule `color`. -/
def persevState : GameState :=
  { currentRule := Rule.shape, previousRule := some Rule.color,
    targetCard := some demoTarget, feedback := none, stats := initialStats }

/-- The 3D twin of `persevState`. -/
def persevState3D : GameState3D :=
  { currentRule := Rule.shape, previousRule := some Rule.color, isAnimating := false,
    targetCard := some demoTarget, feedback := none, stats := initialStats }

/-- A selection that is wrong under `shape` but right under `color` for
the red-circle target: a perseverative error. -/
def persevRef : Card :=
  { id := 7, color := Color.red, shape := Shape.square, number := 2, size := Size.large }

/-- Witness for the C4 theorem at a genuinely perseverative selection. -/
theorem perseverative_increment_iff_witness :
    ((handleCardClick persevState persevRef 0).stats.perseverativeErrors =
      persevState.stats.perseverativeErrors +
        (match persevState.previousRule with
         | some pr =>
           if checkMatch demoTarget persevRef persevState.currentRule = false ∧
               checkMatch demoTarget persevRef pr = true
           then 1 else 0
         | none => 0)) ∧
    ((handleCardSelection persevState3D persevRef 0).stats.perseverativeErrors =
      persevState3D.stats.perseverativeErrors +
        (match persevState3D.previousRule with
         | some pr =>
           if checkMatch demoTarget persevRef persevState3D.currentRule = false ∧
               checkMatch demoTarget persevRef pr = true
           then 1 else 0
         | none => 0)) :=
  ⟨perseverative_increment_iff.1 persevState demoTarget persevRef 0 rfl rfl,
   perseverative_increment_iff.2 persevState3D demoTarget persevRef 0 rfl rfl⟩

theorem handleCardClick_noop (s : GameState) (refCard : Card) (choice : Fin 3)
    (h : s.feedback ≠ none ∨ s.targetCard = none) :
    handleCardClick s refCard choice = s := by
  unfold handleCardClick
  rcases htc : s.targetCard with _ | t <;> rcases hfb : s.feedback with _ | fb <;> simp_all

theorem handleCardSelection_noop (s : GameState3D) (refCard : Card) (choice : Fin 3)
    (h : s.isAnimating = true ∨ s.targetCard = none) :
    handleCardSelection s refCard choice = s := by
  unfold handleCardSelection
  rcases htc : s.targetCard with _ | t <;> rcases han : s.isAnimating with _ | _ <;> simp_all

theorem handleCardClick_locks (s : GameState) (t refCard : Card) (choice : Fin 3)
    (htc : s.targetCard = some t) (hfb : s.feedback = none) :
    (handleCardClick s refCard choice).feedback ≠ none := by
  rcases hm : checkMatch t refCard s.currentRule with _ | _
  · rw [handleCardClick_incorrect s t refCard choice htc hfb hm]; simp
  · by_cases hsw : (s.stats.streak + 1) % CARDS_TO_CHANGE_RULE = 0
    · rw [handleCardClick_correct_switch s t refCard choice htc hfb hm hsw]; simp
    · rw [handleCardClick_correct_noswitch s t refCard choice htc hfb hm hsw]; simp

theorem handleCardSelection_locks (s : GameState3D) (t refCard : Card) (choice : Fin 3)
    (htc : s.targetCard = some t) (han : s.isAnimating = false) :
    (handleCardSelection s refCard choice).isAnimating = true := by
  rcases hm : checkMatch t refCard s.currentRule with _ | _
  · rw [handleCardSelection_incorrect s t refCard choice htc han hm]
  · by_cases hsw : (s.stats.streak + 1) % CARDS_TO_CHANGE_RULE = 0
    · rw [handleCardSelection_correct_switch s t refCard choice htc han hm hsw]
    · rw [handleCardSelection_correct_noswitch s t refCard choice htc han hm hsw]

/-- C5: while the session is locked (feedback showing / animation flag
set) or no target card exists, a selection is a strict no-op; hence
submitting twice in a row has the observable effect of submitting once and
at most one evaluation happens per target card — in both implementations. -/
theorem submit_locked_noop_idempotent :
    (∀ (s : GameState) (refCard : Card) (choice : Fin 3),
      s.feedback ≠ none ∨ s.targetCard = none → handleCardClick s refCard choice = s) ∧
    (∀ (s : GameState) (ra rb : Card) (ca cb : Fin 3),
      handleCardClick (handleCardClick s ra ca) rb cb = handleCardClick s ra ca) ∧
    (∀ (s : GameState3D) (refCard : Card) (choice : Fin 3),
      s.isAnimating = true ∨ s.targetCard = none → handleCardSelection s refCard choice = s) ∧
    (∀ (s : GameState3D) (ra rb : Card) (ca cb : Fin 3),
      handleCardSelection (handleCardSelection s ra ca) rb cb =
        handleCardSelection s ra ca) := by
  refine ⟨handleCardClick_noop, ?_, handleCardSelection_noop, ?_⟩
  · intro s ra rb ca cb
    rcases htc : s.targetCard with _ | t
    · rw [handleCardClick_noop s ra ca (Or.inr htc)]
      exact handleCardClick_noop s rb cb (Or.inr htc)
    · rcases hfb : s.feedback with _ | fb
      · exact handleCardClick_noop _ rb cb (Or.inl (handleCardClick_locks s t ra ca htc hfb))
      · rw [handleCardClick_noop s ra ca (Or.inl (by rw [hfb]; simp))]
        exact handleCardClick_noop s rb cb (Or.inl (by rw [hfb]; simp))
  · intro s ra rb ca cb
    rcases htc : s.targetCard with _ | t
    · rw [handleCardSelection_noop s ra ca (Or.inr htc)]
      exact handleCardSelection_noop s rb cb (Or.inr htc)
    · rcases han : s.isAnimating with _ | _
      · exact handleCardSelection_noop _ rb cb
          (Or.inl (handleCardSelection_locks s t ra ca htc han))
      · rw [handleCardSelection_noop s ra ca (Or.inl han)]
        exact handleCardSelection_noop s rb cb (Or.inl han)

/-- Demonstration DOM state in the middle of the feedback lockout. -/
def lockedState : GameState :=
  { currentRule := Rule.color, previousRule := none, targetCard := some demoTarget,
    feedback := some Feedback.correct, stats := initialStats }

/-- Demonstration 3D state with the animation lock held. -/
def lockedState3D : GameState3D :=
  { currentRule := Rule.color, previousRule := none, isAnimating := true,
    targetCard := some demoTarget, feedback := some Feedback.correct, stats := initialStats }

/-- Witness for the C5 theorem on concrete locked and unlocked states. -/
theorem submit_locked_noop_idempotent_witness :
    handleCardClick lockedState refRed 0 = lockedState ∧
    handleCardClick (handleCardClick demoState refRed 0) refBlue 0 =
      handleCardClick demoState refRed 0 ∧
    handleCardSelection lockedState3D refRed 0 = lockedState3D ∧
    handleCardSelection (handleCardSelection demoState3D refRed 0) refBlue 0 =
      handleCardSelection demoState3D refRed 0 :=
  ⟨submit_locked_noop_idempotent.1 lockedState refRed 0 (Or.inl (by decide)),
   submit_locked_noop_idempotent.2.1 demoState refRed refBlue 0 0,
   submit_locked_noop_idempotent.2.2.1 lockedState3D refRed 0 (Or.inl rfl),
   submit_locked_noop_idempotent.2.2.2 demoState3D refRed refBlue 0 0⟩

/-- C6: every operation of the session — selection evaluation, rule
change, and the lockout callback that starts the next round — leaves the
counters `attempts`, `correct`, `perseverativeErrors` and `ruleChanges`
greater than or equal to their previous values, in both implementations. -/
theorem counters_monotone :
    (∀ (s : GameState) (refCard : Card) (choice : Fin 3),
      s.stats.attempts ≤ (handleCardClick s refCard choice).stats.attempts ∧
      s.stats.correct ≤ (handleCardClick s refCard choice).stats.correct ∧
      s.stats.perseverativeErrors ≤
        (handleCardClick s refCard choice).stats.perseverativeErrors ∧
      s.stats.ruleChanges ≤ (handleCardClick s refCard choice).stats.ruleChanges) ∧
    (∀ (s : GameState) (choice : Fin 3),
      s.stats.attempts ≤ (changeRule s choice).stats.attempts ∧
      s.stats.correct ≤ (changeRule s choice).stats.correct ∧
      s.stats.perseverativeErrors ≤ (changeRule s choice).stats.perseverativeErrors ∧
      s.stats.ruleChanges ≤ (changeRule s choice).stats.ruleChanges) ∧
    (∀ (s : GameState) (next : Card),
      s.stats.attempts ≤ (endLockout s next).stats.attempts ∧
      s.stats.correct ≤ (endLockout s next).stats.correct ∧
      s.stats.perseverativeErrors ≤ (endLockout s next).stats.perseverativeErrors ∧
      s.stats.ruleChanges ≤ (endLockout s next).stats.ruleChanges) ∧
    (∀ (s : GameState3D) (refCard : Card) (choice : Fin 3),
      s.stats.attempts ≤ (handleCardSelection s refCard choice).stats.attempts ∧
      s.stats.correct ≤ (handleCardSelection s refCard choice).stats.correct ∧
      s.stats.perseverativeErrors ≤
        (handleCardSelection s refCard choice).stats.perseverativeErrors ∧
      s.stats.ruleChanges ≤ (handleCardSelection s refCard choice).stats.ruleChanges) ∧
    (∀ (s : GameState3D) (choice : Fin 3),
      s.stats.attempts ≤ (changeRule3D s choice).stats.attempts ∧
      s.stats.correct ≤ (changeRule3D s choice).stats.correct ∧
      s.stats.perseverativeErrors ≤ (changeRule3D s choice).stats.perseverativeErrors ∧
      s.stats.ruleChanges ≤ (changeRule3D s choice).stats.ruleChanges) := by
  refine ⟨?_, ?_, ?_, ?_, ?_⟩
  · intro s refCard choice
    rcases htc : s.targetCard with _ | t
    · rw [handleCardClick_noop s refCard choice (Or.inr htc)]
      exact ⟨le_refl _, le_refl _, le_refl _, le_refl _⟩
    · rcases hfb : s.feedback with _ | fb
      · rcases hm : checkMatch t refCard s.currentRule with _ | _
        · rw [handleCardClick_incorrect s t refCard choice htc hfb hm]
          exact ⟨Nat.le_succ _, le_refl _, Nat.le_add_right _ _, le_refl _⟩
        · by_cases hsw : (s.stats.streak + 1) % CARDS_TO_CHANGE_RULE = 0
          · rw [handleCardClick_correct_switch s t refCard choice htc hfb hm hsw]
            exact ⟨Nat.le_succ _, Nat.le_succ _, le_refl _, Nat.le_succ _⟩
          · rw [handleCardClick_correct_noswitch s t refCard choice htc hfb hm hsw]
            exact ⟨Nat.le_succ _, Nat.le_succ _, le_refl _, le_refl _⟩
      · rw [handleCardClick_noop s refCard choice (Or.inl (by rw [hfb]; simp))]
        exact ⟨le_refl _, le_refl _, le_refl _, le_refl _⟩
  · intro s choice
    exact ⟨le_refl _, le_refl _, le_refl _, Nat.le_succ _⟩
  · intro s next
    exact ⟨le_refl _, le_refl _, le_refl _, le_refl _⟩
  · intro s refCard choice
    rcases htc : s.targetCard with _ | t
    · rw [handleCardSelection_noop s refCard choice (Or.inr htc)]
      exact ⟨le_refl _, le_refl _, le_refl _, le_refl _⟩
    · rcases han : s.isAnimating with _ | _
      · rcases hm : checkMatch t refCard s.currentRule with _ | _
        · rw [handleCardSelection_incorrect s t refCard choice htc han hm]
          exact ⟨Nat.le_succ _, le_refl _, Nat.le_add_right _ _, le_refl _⟩
        · by_cases hsw : (s.stats.streak + 1) % CARDS_TO_CHANGE_RULE = 0
          · rw [handleCardSelection_correct_switch s t refCard choice htc han hm hsw]
            exact ⟨Nat.le_succ _, Nat.le_succ _, le_refl _, Nat.le_succ _⟩
          · rw [handleCardSelection_correct_noswitch s t refCard choice htc han hm hsw]
            exact ⟨Nat.le_succ _, Nat.le_succ _, le_refl _, le_refl _⟩
      · rw [handleCardSelection_noop s refCard choice (Or.inl han)]
        exact ⟨le_refl _, le_refl _, le_refl _, le_refl _⟩
  · intro s choice
    exact ⟨le_refl _, le_refl _, le_refl _, Nat.le_succ _⟩

/-- C7: with the default four-card reference set, every possible target
card matches exactly one reference card under the `color`, `shape` and
`number` rules, but a target of size `medium` matches exactly the two
medium reference cards (green/triangle/2/medium and
yellow/square/4/medium) under the `size` rule. -/
theorem one_match_per_rule_except_size :
    (∀ t : Card, (referenceCards.filter (fun rc => checkMatch t rc Rule.color)).length = 1) ∧
    (∀ t : Card, (referenceCards.filter (fun rc => checkMatch t rc Rule.shape)).length = 1) ∧
    (∀ t : Card, 1 ≤ t.number → t.number ≤ 4 →
      (referenceCards.filter (fun rc => checkMatch t rc Rule.number)).length = 1) ∧
    (∀ t : Card, t.size = Size.medium →
      referenceCards.filter (fun rc => checkMatch t rc Rule.size) =
        [ { id := 2, color := Color.green, shape := Shape.triangle, number := 2,
            size := Size.medium },
          { id := 4, color := Color.yellow, shape := Shape.square, number := 4,
            size := Size.medium } ]) := by
  refine ⟨?_, ?_, ?_, ?_⟩
  · intro t
    rcases t with ⟨i, col, sh, n, sz⟩
    cases col <;> rfl
  · intro t
    rcases t with ⟨i, col, sh, n, sz⟩
    cases sh <;> rfl
  · intro t h1 h4
    rcases t with ⟨i, col, sh, n, sz⟩
    obtain ⟨hl, hu⟩ : 1 ≤ n ∧ n ≤ 4 := ⟨h1, h4⟩
    interval_cases n <;> rfl
  · intro t hsz
    rcases t with ⟨i, col, sh, n, sz⟩
    obtain rfl : sz = Size.medium := hsz
    rfl

/-- A demonstration target card of size `medium`. -/
def mediumTarget : Card :=
  { id := 200, color := Color.red, shape := Shape.circle, number := 1, size := Size.medium }

/-- Witness for the C7 theorem at concrete target cards. -/
theorem one_match_per_rule_except_size_witness :
    (referenceCards.filter (fun rc => checkMatch demoTarget rc Rule.number)).length = 1 ∧
    referenceCards.filter (fun rc => checkMatch mediumTarget rc Rule.size) =
      [ { id := 2, color := Color.green, shape := Shape.triangle, number := 2,
          size := Size.medium },
        { id := 4, color := Color.yellow, shape := Shape.square, number := 4,
          size := Size.medium } ] :=
  ⟨one_match_per_rule_except_size.2.2.1 demoTarget (by decide) (by decide),
   one_match_per_rule_except_size.2.2.2 mediumTarget rfl⟩

/-- A card whose id (99) is not among the four reference-card ids. -/
def invalidCard : Card :=
  { id := 99, color := Color.red, shape := Shape.square, number := 2, size := Size.large }

/-- C8 counterexample: the evaluation entry point performs no membership
validation.  Passing a card whose id 99 is outside the reference set to
`handleCardClick` in an awaiting state mutates the stats (an attempt is
counted) and enters the feedback lockout, contradicting the claimed
no-op. -/
theorem invalid_selection_evaluated_counterexample :
    referenceCards.map Card.id = [1, 2, 3, 4] ∧
    invalidCard.id = 99 ∧
    demoState.feedback = none ∧
    demoState.targetCard = some demoTarget ∧
    (handleCardClick demoState invalidCard 0).stats.attempts =
      demoState.stats.attempts + 1 ∧
    (handleCardClick demoState invalidCard 0).feedback = some Feedback.correct := by
  decide

/-- C8 amended: invalid selections are rejected before reaching the
evaluation logic.  In the 3D version `handleCanvasClick` leaves the whole
session state untouched whenever the click resolves to no object or to an
object not flagged as a reference card; the evaluation function itself
checks no membership. -/
theorem canvas_click_nonreference_noop :
    (∀ (s : GameState3D) (choice : Fin 3), handleCanvasClick s none choice = s) ∧
    (∀ (s : GameState3D) (obj : HitObject) (choice : Fin 3),
      obj.isReference = false → handleCanvasClick s (some obj) choice = s) := by
  constructor
  · intro s choice
    rfl
  · intro s obj choice h
    unfold handleCanvasClick
    simp [h]

/-- Witness for the amended C8 theorem on a concrete state and a concrete
non-reference hit. -/
theorem canvas_click_nonreference_noop_witness :
    handleCanvasClick demoState3D none 0 = demoState3D ∧
    handleCanvasClick demoState3D
      (some { isReference := false, cardData := invalidCard }) 0 = demoState3D :=
  ⟨canvas_click_nonreference_noop.1 demoState3D 0,
   canvas_click_nonreference_noop.2 demoState3D
     { isReference := false, cardData := invalidCard } 0 rfl⟩

/-- C9: the rule-change threshold and the feedback delay are the fixed
constants 5 and 1000 ms; every scheduled lockout uses exactly
`feedbackDelayMs`, and every evaluated round increments `ruleChanges`
exactly when the new streak is a positive multiple of
`CARDS_TO_CHANGE_RULE`. -/
theorem config_constants_govern :
    CARDS_TO_CHANGE_RULE = 5 ∧ feedbackDelayMs = 1000 ∧
    (∀ (s : GameState) (d : Nat), scheduledDelay s = some d → d = feedbackDelayMs) ∧
    (∀ (s : GameState) (t refCard : Card) (choice : Fin 3),
      s.targetCard = some t → s.feedback = none →
      (handleCardClick s refCard choice).stats.ruleChanges =
        s.stats.ruleChanges +
          (if 0 < (if checkMatch t refCard s.currentRule then s.stats.streak + 1 else 0) ∧
              (if checkMatch t refCard s.currentRule then s.stats.streak + 1 else 0) %
                CARDS_TO_CHANGE_RULE = 0
           then 1 else 0)) := by
  refine ⟨rfl, rfl, ?_, ?_⟩
  · intro s d h
    unfold scheduledDelay at h
    rcases htc : s.targetCard with _ | t <;> rcases hfb : s.feedback with _ | fb
    all_goals (rw [htc, hfb] at h; simp [feedbackDelayMs] at h ⊢; try omega)
  · intro s t refCard choice htc hfb
    rcases hm : checkMatch t refCard s.currentRule with _ | _
    · rw [handleCardClick_incorrect s t refCard choice htc hfb hm]
      simp
    · by_cases hsw : (s.stats.streak + 1) % CARDS_TO_CHANGE_RULE = 0
      · rw [handleCardClick_correct_switch s t refCard choice htc hfb hm hsw]
        simp [hsw]
      · rw [handleCardClick_correct_noswitch s t refCard choice htc hfb hm hsw]
        simp [hsw]

/-- Witness for the C9 theorem: concrete scheduled delay and a concrete
evaluated round. -/
theorem config_constants_govern_witness :
    (1000 : Nat) = feedbackDelayMs ∧
    (handleCardClick demoState refRed 0).stats.ruleChanges =
      demoState.stats.ruleChanges +
        (if 0 < (if checkMatch demoTarget refRed demoState.currentRule then
                   demoState.stats.streak + 1 else 0) ∧
            (if checkMatch demoTarget refRed demoState.currentRule then
               demoState.stats.streak + 1 else 0) % CARDS_TO_CHANGE_RULE = 0
         then 1 else 0) :=
  ⟨config_constants_govern.2.2.1 demoState 1000 rfl,
   config_constants_govern.2.2.2 demoState demoTarget refRed 0 rfl rfl⟩
